import Mathlib

/-!
Shallow embedding of the real-time bus location / ETA core of the
Local-Route repository (src/core/consumers.py, src/core/views.py,
src/core/models.py).

Conventions used throughout:

Python floats are modelled as rationals.  The inline haversine
computations (floating-point trigonometry) are abstracted as explicit
function parameters: a value of type Hav stands for the concrete
haversine helper at a call site (one instance per Earth-radius variant:
metres, R = 6371000, and kilometres, R = 6371).  Every control-flow
decision of the source is kept verbatim; only the numeric value of a
distance is supplied by the parameter.

Python truthiness on nullable floats (None and 0.0 are falsy) is
modelled by pyTruthy; Python int() truncation toward zero by pyInt.

Database rows (Bus together with its mirrored Driver row and the
ordered stop list of its route) are modelled by the record BusRec;
the WebSocket consumer session state by Session; channel-layer
group_send events by OutEvent.
-/

namespace LocalRoute

/-- Truthiness of a nullable Python float: None and 0.0 are falsy. -/
def pyTruthy (o : Option ℚ) : Prop := o ≠ none ∧ o ≠ some 0

instance (o : Option ℚ) : Decidable (pyTruthy o) := instDecidableAnd

/-- Truthiness of a nullable Python int id: None and 0 are falsy. -/
def pyTruthyNat (o : Option ℕ) : Prop := o ≠ none ∧ o ≠ some 0

instance (o : Option ℕ) : Decidable (pyTruthyNat o) := instDecidableAnd

/-- Python int() applied to a float: truncation toward zero. -/
def pyInt (q : ℚ) : ℤ := if 0 ≤ q then ⌊q⌋ else ⌈q⌉

/-- Type of the abstracted haversine helpers: lat1 lon1 lat2 lon2 to
a distance. -/
def Hav : Type := ℚ → ℚ → ℚ → ℚ → ℚ

/-- A Stop row: identity and coordinates (models.Stop). -/
structure GeoStop where
  stopId : ℕ
  latitude : ℚ
  longitude : ℚ
  deriving DecidableEq

/-- A RouteStop row in route order: the stop plus the optional
precomputed distance to the next stop in metres (models.RouteStop). -/
structure RouteStopRec where
  stop : GeoStop
  distance_to_next_m : Option ℚ
  deriving DecidableEq

/-- Edge weight used by BusRoute.get_stop_graph: the stored
distance_to_next_m when it is present and non-zero, otherwise the
haversine distance (BusRoute._calculate_distance, R = 6371000 m)
between the two stops. -/
def edgeWeight (hav : Hav) (rs next : RouteStopRec) : ℚ :=
  match rs.distance_to_next_m with
  | none => hav rs.stop.latitude rs.stop.longitude next.stop.latitude next.stop.longitude
  | some d =>
      if d = 0 then
        hav rs.stop.latitude rs.stop.longitude next.stop.latitude next.stop.longitude
      else d

/-- BusRoute.get_stop_graph: iterate over the route stops in order;
every stop contributes one adjacency entry, holding the single forward
edge to the following stop (weighted by edgeWeight) for all but the
last stop, which gets an empty edge list.  The Python dict is modelled
as an association list; RouteStop rows of one route have pairwise
distinct stops (unique_together), so the association list and the dict
agree. -/
def get_stop_graph (hav : Hav) : List RouteStopRec → List (ℕ × List (ℕ × ℚ))
  | [] => []
  | [rs] => [(rs.stop.stopId, [])]
  | rs :: next :: rest =>
      (rs.stop.stopId, [(next.stop.stopId, edgeWeight hav rs next)])
        :: get_stop_graph hav (next :: rest)

/-- Python min(range(n), key=f) for n greater than 0: the first index
attaining the minimum (the accumulator is replaced only on a strictly
smaller key). -/
def minIndexAux (f : ℕ → ℚ) : List ℕ → ℕ → ℕ
  | [], best => best
  | i :: rest, best => minIndexAux f rest (if f i < f best then i else best)

/-- min(range(n), key=f), first-occurrence tie-break. -/
def minIndex (f : ℕ → ℚ) (n : ℕ) : ℕ :=
  minIndexAux f ((List.range n).drop 1) 0

/-- The shared mutable Bus row together with its mirrored Driver row
and the ordered stop list of its current route (route.get_stops_list()).
routeStops is none when the bus has no route attribute; hasDriver
records whether bus.driver is set. -/
structure BusRec where
  current_lat : Option ℚ
  current_lng : Option ℚ
  nearest_stop_index : Option ℕ
  eta_seconds : Option ℤ
  eta_smoothed_seconds : Option ℚ
  eta_passed_counter : ℤ
  updated_at : Option ℕ
  hasDriver : Bool
  driver_lat : Option ℚ
  driver_lng : Option ℚ
  routeStops : Option (List GeoStop)
  deriving DecidableEq

/-- Per-connection state of LocationConsumer: the per-session sequence
counter (set to 0 in connect) and the role flag is_driver. -/
structure Session where
  sequence_number : ℕ
  is_driver : Bool
  deriving DecidableEq

/-- Events delivered through the channel layer or sent directly on the
socket by LocationConsumer. -/
inductive OutEvent where
  | location_update (lat lng : ℚ) (is_historical : Bool) (sequence : ℤ)
  | tracking_status (status : String) (message : String)
  deriving DecidableEq

/-- Distance between a fix and the i-th stop of stops under hav
(out-of-range indices read a zero stop; the callers only use indices
below the length). -/
def stopDist (hav : Hav) (lat lng : ℚ) (stops : List GeoStop) (i : ℕ) : ℚ :=
  hav lat lng ((stops.getD i ⟨0, 0, 0⟩).latitude) ((stops.getD i ⟨0, 0, 0⟩).longitude)

/-- The acceptance branch of LocationConsumer._save_bus_location:
store the fix and the update timestamp on the bus; if the bus has a
driver, mirror the fix onto the driver row and then, when the route
and its stop list are available and non-empty, recompute the nearest
stop index (min over hav_km distances, first index wins ties), the raw
ETA to the nearest stop (int((dist_km / 25) * 3600), clamped below by
1 via max) and the exponentially smoothed ETA (alpha = 0.3; the
previous smoothed value is consulted with Python truthiness, so both
None and 0.0 restart the filter). -/
def save_accept (hav_km : Hav) (bus : BusRec) (lat lng : ℚ) (now : ℕ) : BusRec :=
  let b1 := { bus with current_lat := some lat, current_lng := some lng,
                       updated_at := some now }
  if bus.hasDriver then
    let b2 := { b1 with driver_lat := some lat, driver_lng := some lng }
    match bus.routeStops with
    | none => b2
    | some stops =>
        if stops = [] then b2
        else
          let nearest := minIndex (stopDist hav_km lat lng stops) stops.length
          let dist_km := stopDist hav_km lat lng stops nearest
          let eta1 : ℤ := max 1 (pyInt (dist_km / 25 * 3600))
          let sm : ℚ :=
            if pyTruthy b2.eta_smoothed_seconds then
              3/10 * (eta1 : ℚ) + (1 - 3/10) * (b2.eta_smoothed_seconds.getD 0)
            else (eta1 : ℚ)
          { b2 with nearest_stop_index := some nearest,
                    eta_seconds := some eta1,
                    eta_smoothed_seconds := some sm }
  else b1

/-- LocationConsumer._save_bus_location: when both stored coordinates
are truthy (present and non-zero) the haversine distance in metres
(hav_m, R = 6371000) from the stored position to the new fix is
compared against MIN_MOVEMENT_METERS = 25; a move under 25 m returns
False with no mutation.  Otherwise the update is applied and True
returned. -/
def save_bus_location (hav_m hav_km : Hav) (bus : BusRec) (lat lng : ℚ)
    (now : ℕ) : Bool × BusRec :=
  if pyTruthy bus.current_lat ∧ pyTruthy bus.current_lng then
    let distance_m :=
      hav_m (bus.current_lat.getD 0) (bus.current_lng.getD 0) lat lng
    if distance_m < 25 then (false, bus)
    else (true, save_accept hav_km bus lat lng now)
  else (true, save_accept hav_km bus lat lng now)

/-- LocationConsumer.receive on a location-typed event: non-driver
sessions return immediately (no mutation, no publish, no reply);
missing lat or lng returns; otherwise _save_bus_location runs and, on
success, the sequence counter is incremented and a location_update
event with that sequence number is published, preceded on the very
first accepted update of the session by a connected tracking_status
event. -/
def receive_location (hav_m hav_km : Hav) (sess : Session) (bus : BusRec)
    (lat lng : Option ℚ) (now : ℕ) : Session × BusRec × List OutEvent :=
  if sess.is_driver = false then (sess, bus, [])
  else
    match lat, lng with
    | some la, some ln =>
        let r := save_bus_location hav_m hav_km bus la ln now
        if r.1 then
          let seq := sess.sequence_number + 1
          ({ sess with sequence_number := seq }, r.2,
            (if seq = 1 then
                [OutEvent.tracking_status "connected" "Driver started tracking"]
              else [])
              ++ [OutEvent.location_update la ln false (seq : ℤ)])
        else (sess, r.2, [])
    | _, _ => (sess, bus, [])

/-- LocationConsumer._get_last_bus_location: the stored position when
both coordinates are truthy, else None. -/
def get_last_bus_location (bus : BusRec) : Option (ℚ × ℚ) :=
  if pyTruthy bus.current_lat ∧ pyTruthy bus.current_lng then
    some (bus.current_lat.getD 0, bus.current_lng.getD 0)
  else none

/-- The messages LocationConsumer.connect sends directly to a newly
accepted socket: drivers get nothing; passengers get the historical
replay (is_historical true, sequence -1) when a last position exists,
followed in either case by a waiting tracking_status. -/
def connect_messages (isDrv : Bool) (bus : BusRec) : List OutEvent :=
  if isDrv then []
  else
    match get_last_bus_location bus with
    | some (la, ln) =>
        [OutEvent.location_update la ln true (-1),
         OutEvent.tracking_status "waiting" "Waiting for driver to start tracking..."]
    | none =>
        [OutEvent.tracking_status "waiting" "Waiting for driver to start tracking..."]

/-- LocationConsumer._clear_bus_location: null out the live position,
nearest stop index and both ETA fields on the bus, and mirror the
clear onto the driver row when one exists. -/
def clear_bus_location (bus : BusRec) : BusRec :=
  let b1 := { bus with current_lat := none, current_lng := none,
                       nearest_stop_index := none, eta_seconds := none,
                       eta_smoothed_seconds := none }
  if bus.hasDriver then { b1 with driver_lat := none, driver_lng := none }
  else b1

/-- LocationConsumer.disconnect: a driver session clears the bus
location and publishes a disconnected tracking_status to the bus group
before leaving it; a passenger session only leaves the group. -/
def disconnect_location (sess : Session) (bus : BusRec) : BusRec × List OutEvent :=
  if sess.is_driver then
    (clear_bus_location bus,
     [OutEvent.tracking_status "disconnected" "Driver stopped tracking"])
  else (bus, [])

/-- Run a driver session over a list of incoming location fixes,
concatenating the published events (each fix fed to receive_location
with both coordinates present). -/
def run_trace (hav_m hav_km : Hav) (sess : Session) (bus : BusRec)
    (now : ℕ) : List (ℚ × ℚ) → Session × BusRec × List OutEvent
  | [] => (sess, bus, [])
  | p :: rest =>
      let r := receive_location hav_m hav_km sess bus (some p.1) (some p.2) now
      let r2 := run_trace hav_m hav_km r.1 r.2.1 now rest
      (r2.1, r2.2.1, r.2.2 ++ r2.2.2)

/-- The subsequence of fixes of a trace that _save_bus_location
accepts, tracking the evolving bus state. -/
def accepted_fixes (hav_m hav_km : Hav) (bus : BusRec) (now : ℕ) :
    List (ℚ × ℚ) → List (ℚ × ℚ)
  | [] => []
  | p :: rest =>
      let r := save_bus_location hav_m hav_km bus p.1 p.2 now
      if r.1 then p :: accepted_fixes hav_m hav_km r.2 now rest
      else accepted_fixes hav_m hav_km r.2 now rest

/-- The event log the consumer is expected to publish for a list of
accepted fixes, the session counter standing at s before the first of
them: the j-th accepted fix is published with sequence s + j, preceded
by the connected tracking_status exactly when its sequence is 1. -/
def expected_events : List (ℚ × ℚ) → ℕ → List OutEvent
  | [], _ => []
  | p :: rest, s =>
      ((if s + 1 = 1 then
          [OutEvent.tracking_status "connected" "Driver started tracking"]
        else [])
        ++ [OutEvent.location_update p.1 p.2 false ((s + 1 : ℕ) : ℤ)])
        ++ expected_events rest (s + 1)

/-- views.switch_route, the mutation performed once all guards pass
(driver present, bus present, current route and reverse route
configured): the bus is moved to the reverse route, nearest stop index
and both ETA fields are reset to None and the passed counter to 0.
The live coordinates current_lat and current_lng are not part of the
reset. -/
def switch_route_apply (bus : BusRec) (reverseStops : List GeoStop) : BusRec :=
  { bus with routeStops := some reverseStops,
             nearest_stop_index := none,
             eta_seconds := none,
             eta_smoothed_seconds := none,
             eta_passed_counter := 0 }

/-- views.update_location (AJAX driver endpoint), the state mutation on
a parsed fix: mirror the fix on the driver row, store it on the
first bus of the driver, recompute nearest stop index, raw ETA
(int((dist_km / 25) * 3600) clamped below by 1) and the smoothed ETA
(alpha = 0.3, restarted only when the previous smoothed value is None),
and update the passed counter: +1 when the nearest index strictly
increased, 0 when it strictly decreased, unchanged when equal or when
no previous index exists. -/
def update_location (hav_km : Hav) (bus : BusRec) (lat lng : ℚ) : BusRec :=
  let old_nearest := bus.nearest_stop_index
  let old_sm := bus.eta_smoothed_seconds
  let b1 := { bus with driver_lat := some lat, driver_lng := some lng,
                       current_lat := some lat, current_lng := some lng }
  match bus.routeStops with
  | none => b1
  | some stops =>
      if stops = [] then b1
      else
        let nearest := minIndex (stopDist hav_km lat lng stops) stops.length
        let dist_km := stopDist hav_km lat lng stops nearest
        let eta0 : ℤ := pyInt (dist_km / 25 * 3600)
        let eta1 : ℤ := if eta0 < 1 then 1 else eta0
        let sm : ℚ :=
          match old_sm with
          | none => (eta1 : ℚ)
          | some prev => 3/10 * (eta1 : ℚ) + (1 - 3/10) * prev
        let counter : ℤ :=
          match old_nearest with
          | none => bus.eta_passed_counter
          | some ok =>
              if ok < nearest then bus.eta_passed_counter + 1
              else if nearest < ok then 0
              else bus.eta_passed_counter
        { b1 with nearest_stop_index := some nearest,
                  eta_seconds := some eta1,
                  eta_smoothed_seconds := some sm,
                  eta_passed_counter := counter }

/-- views.homepage: stops_between as computed on the Dijkstra branch,
pickup_idx - nearest_stop_idx clamped below by zero. -/
def stops_between_clamped (pickupIdx nearestIdx : ℤ) : ℤ :=
  if pickupIdx - nearestIdx < 0 then 0 else pickupIdx - nearestIdx

/-- views.homepage, the pickup ETA in minutes computed for a bus with
a live non-stale position that has not passed the pickup stop:
stop-delay minutes are stops_between * 60 seconds converted back to
minutes, travel time is total_distance_km over 25 km/h in hours times
60, and the result is max(1, int(total minutes)) - Python int, i.e.
truncation. -/
def homepage_eta (total_distance_km : ℚ) (stops_between : ℤ) : ℤ :=
  let total_stop_delay_minutes : ℚ := ((stops_between : ℚ) * 60) / 60
  let travel_time_minutes : ℚ := total_distance_km / 25 * 60
  max 1 (pyInt (travel_time_minutes + total_stop_delay_minutes))

/-- The homepage pickup ETA as the specification words it: the same
total minutes, but rounded to the nearest integer instead of
truncated.  Stated from the spec for comparison with homepage_eta. -/
def homepage_eta_spec (total_distance_km : ℚ) (stops_between : ℤ) : ℤ :=
  max 1 (round (total_distance_km / 25 * 60 + (stops_between : ℚ)))

/-- A persisted chat Message row (models.Message), reduced to the
fields the recipient-resolution query reads. -/
structure ChatMsg where
  sender : ℕ
  recipient : ℕ
  created_at : ℕ
  deriving DecidableEq

/-- The query inside ChatConsumer.receive resolving the last
contact: among messages whose recipient is the driver and whose sender
is not the driver (the exclude clause), the sender of the one with the
greatest created_at (order_by -created_at, first; ties keep the
earliest row, the database order on ties being unspecified). -/
def last_user_to_driver (msgs : List ChatMsg) (sid : ℕ) : Option ℕ :=
  ((msgs.filter (fun m => m.recipient = sid ∧ m.sender ≠ sid)).foldl
      (fun best m =>
        match best with
        | none => some m
        | some b => if b.created_at < m.created_at then some m else some b)
      none).map (fun m => m.sender)

/-- The most recent message received by a user, with no exclusion of
self-sent messages.  Stated from the specification words (the most
recent message ever received by that driver) for comparison with
last_user_to_driver. -/
def last_message_received_spec (msgs : List ChatMsg) (sid : ℕ) : Option ℕ :=
  ((msgs.filter (fun m => m.recipient = sid)).foldl
      (fun best m =>
        match best with
        | none => some m
        | some b => if b.created_at < m.created_at then some m else some b)
      none).map (fun m => m.sender)

/-- ChatConsumer.receive, recipient resolution for a chat_message
event: (a) keep a truthy explicit recipient_id; (b) else, when a
truthy bus_id is given and the sender is not a driver, take the user
id of the driver assigned to that bus when that chain resolves
(busDriverUser, None when
the bus is missing or has no driver user); (c) else, when the sender
is a driver, take the last contact when that is truthy. -/
def resolve_recipient (isSenderDriver : Bool) (senderId : ℕ)
    (recipient_id bus_id : Option ℕ) (busDriverUser : Option ℕ)
    (msgs : List ChatMsg) : Option ℕ :=
  let r1 : Option ℕ :=
    if ¬ pyTruthyNat recipient_id ∧ pyTruthyNat bus_id then
      if isSenderDriver = false then
        match busDriverUser with
        | some uid => some uid
        | none => recipient_id
      else recipient_id
    else recipient_id
  if ¬ pyTruthyNat r1 then
    if isSenderDriver then
      match last_user_to_driver msgs senderId with
      | some u => if u ≠ 0 then some u else r1
      | none => r1
    else r1
  else r1

/-- ChatConsumer.receive after resolution: the event is dropped
(nothing persisted, nothing published) when the resolved recipient or
the content is falsy; otherwise the message is persisted and fanned
out, summarised here as the recipient and content of the message that
is persisted and published. -/
def chat_receive (isSenderDriver : Bool) (senderId : ℕ)
    (recipient_id bus_id : Option ℕ) (busDriverUser : Option ℕ)
    (msgs : List ChatMsg) (content : String) : Option (ℕ × String) :=
  match resolve_recipient isSenderDriver senderId recipient_id bus_id
      busDriverUser msgs with
  | none => none
  | some rid => if rid ≠ 0 ∧ content ≠ "" then some (rid, content) else none

/-! ### Helper lemmas -/

/-- The acceptance branch always stores the new latitude. -/
lemma save_accept_current_lat (hk : Hav) (bus : BusRec) (la ln : ℚ) (now : ℕ) :
    (save_accept hk bus la ln now).current_lat = some la := by
  unfold save_accept
  by_cases hd : bus.hasDriver = true
  · simp only [hd, if_true]
    cases hr : bus.routeStops with
    | none => rfl
    | some stops =>
      by_cases he : stops = [] <;> simp [he]
  · simp [hd]

/-- The acceptance branch always stores the new longitude. -/
lemma save_accept_current_lng (hk : Hav) (bus : BusRec) (la ln : ℚ) (now : ℕ) :
    (save_accept hk bus la ln now).current_lng = some ln := by
  unfold save_accept
  by_cases hd : bus.hasDriver = true
  · simp only [hd, if_true]
    cases hr : bus.routeStops with
    | none => rfl
    | some stops =>
      by_cases he : stops = [] <;> simp [he]
  · simp [hd]

/-- The acceptance branch of the WebSocket path never touches the
passed counter. -/
lemma save_accept_counter (hk : Hav) (bus : BusRec) (la ln : ℚ) (now : ℕ) :
    (save_accept hk bus la ln now).eta_passed_counter = bus.eta_passed_counter := by
  unfold save_accept
  by_cases hd : bus.hasDriver = true
  · simp only [hd, if_true]
    cases hr : bus.routeStops with
    | none => rfl
    | some stops =>
      by_cases he : stops = [] <;> simp [he]
  · simp [hd]

/-- get_stop_graph has one entry per route stop. -/
lemma get_stop_graph_length (hav : Hav) (stops : List RouteStopRec) :
    (get_stop_graph hav stops).length = stops.length := by
  induction stops with
  | nil => rfl
  | cons a t ih =>
    cases t with
    | nil => rfl
    | cons b r => simpa [get_stop_graph] using ih

/-- The adjacency keys are exactly the stop ids, in route order. -/
lemma get_stop_graph_keys (hav : Hav) (stops : List RouteStopRec) :
    (get_stop_graph hav stops).map Prod.fst
      = stops.map (fun rs => rs.stop.stopId) := by
  induction stops with
  | nil => rfl
  | cons a t ih =>
    cases t with
    | nil => rfl
    | cons b r => simpa [get_stop_graph] using ih

/-- The total number of edges is one less than the number of stops. -/
lemma get_stop_graph_edge_count (hav : Hav) (stops : List RouteStopRec) :
    ((get_stop_graph hav stops).map (fun e => e.2.length)).sum
      = stops.length - 1 := by
  induction stops with
  | nil => rfl
  | cons a t ih =>
    cases t with
    | nil => rfl
    | cons b r =>
      simp [get_stop_graph] at ih ⊢
      omega

/-- Entry i of the graph, for a stop with a successor, holds the
single forward edge to stop i+1. -/
lemma get_stop_graph_forward (hav : Hav) :
    ∀ (stops : List RouteStopRec) (i : ℕ), i + 1 < stops.length →
      ((get_stop_graph hav stops).getD i (0, [])).2
        = [((stops.getD (i + 1) ⟨⟨0, 0, 0⟩, none⟩).stop.stopId,
            edgeWeight hav (stops.getD i ⟨⟨0, 0, 0⟩, none⟩)
              (stops.getD (i + 1) ⟨⟨0, 0, 0⟩, none⟩))] := by
  intro stops
  induction stops with
  | nil => intro i h; simp at h
  | cons a t ih =>
    intro i h
    cases t with
    | nil => simp at h
    | cons b r =>
      cases i with
      | zero => simp [get_stop_graph]
      | succ j =>
        have hj : j + 1 < (b :: r).length := by
          simpa using Nat.lt_of_succ_lt_succ h
        simpa [get_stop_graph] using ih j hj

/-- The last entry of the graph has no outgoing edge. -/
lemma get_stop_graph_last (hav : Hav) :
    ∀ (stops : List RouteStopRec) (i : ℕ), i + 1 = stops.length →
      ((get_stop_graph hav stops).getD i (0, [])).2 = [] := by
  intro stops
  induction stops with
  | nil => intro i h; simp at h
  | cons a t ih =>
    intro i h
    cases t with
    | nil =>
      cases i with
      | zero => rfl
      | succ j => simp at h
    | cons b r =>
      cases i with
      | zero => simp at h
      | succ j =>
        have hj : j + 1 = (b :: r).length := by simpa using h
        simpa [get_stop_graph] using ih j hj

/-- Session and event-log invariant of a driver-session trace: the
sequence counter advances by the number of accepted fixes, and the
published log is exactly expected_events of the accepted fixes. -/
lemma run_trace_invariant (hm hk : Hav) (now : ℕ) :
    ∀ (trace : List (ℚ × ℚ)) (s : ℕ) (bus : BusRec),
      (run_trace hm hk ⟨s, true⟩ bus now trace).1
          = ⟨s + (accepted_fixes hm hk bus now trace).length, true⟩ ∧
      (run_trace hm hk ⟨s, true⟩ bus now trace).2.2
          = expected_events (accepted_fixes hm hk bus now trace) s := by
  intro trace
  induction trace with
  | nil =>
    intro s bus
    simp [run_trace, accepted_fixes, expected_events]
  | cons p rest ih =>
    intro s bus
    simp only [run_trace, receive_location, accepted_fixes]
    cases hb : (save_bus_location hm hk bus p.1 p.2 now).1 with
    | true =>
      have h1 := (ih (s + 1) (save_bus_location hm hk bus p.1 p.2 now).2).1
      have h2 := (ih (s + 1) (save_bus_location hm hk bus p.1 p.2 now).2).2
      simp [hb, expected_events, h1, h2]
      omega
    | false =>
      have h1 := (ih s (save_bus_location hm hk bus p.1 p.2 now).2).1
      have h2 := (ih s (save_bus_location hm hk bus p.1 p.2 now).2).2
      simp [hb, h1, h2]

/-! ### Claim C3 -/

/-- Claim C3, counterexample: switching a bus to its reverse route
does not reset the live coordinates.  A bus whose stored position is
(27.7, 85.3) keeps both coordinates (non-null) across the switch,
refuting the claim that all live fields including current latitude and
longitude are reset to null. -/
theorem c3_counterexample :
    (switch_route_apply
        ⟨some (277/10), some (853/10), some 4, some 120, some 100, 3,
         some 9, true, some (277/10), some (853/10), some []⟩ []).current_lat
      = some (277/10) ∧
    (switch_route_apply
        ⟨some (277/10), some (853/10), some 4, some 120, some 100, 3,
         some 9, true, some (277/10), some (853/10), some []⟩ []).current_lng
      = some (853/10) ∧
    some ((277 : ℚ)/10) ≠ (none : Option ℚ) := by
  refine ⟨rfl, rfl, ?_⟩
  simp

/-- Claim C3, amended: switch_route resets the nearest-stop index, the
raw ETA and the smoothed ETA to null and the passed counter to zero,
installs the reverse route, and leaves the live coordinates (and the
driver mirror) unchanged. -/
theorem c3_switch_route_reset (bus : BusRec) (rev : List GeoStop) :
    (switch_route_apply bus rev).nearest_stop_index = none ∧
    (switch_route_apply bus rev).eta_seconds = none ∧
    (switch_route_apply bus rev).eta_smoothed_seconds = none ∧
    (switch_route_apply bus rev).eta_passed_counter = 0 ∧
    (switch_route_apply bus rev).routeStops = some rev ∧
    (switch_route_apply bus rev).current_lat = bus.current_lat ∧
    (switch_route_apply bus rev).current_lng = bus.current_lng ∧
    (switch_route_apply bus rev).driver_lat = bus.driver_lat ∧
    (switch_route_apply bus rev).driver_lng = bus.driver_lng :=
  ⟨rfl, rfl, rfl, rfl, rfl, rfl, rfl, rfl, rfl⟩

/-! ### Claim C4 -/

/-- Claim C4: on disconnect, a driver session clears the bus live
fields (lat, lng, nearest index, raw and smoothed ETA) to null,
mirrors the clear onto the driver row when one exists, and publishes a
disconnected tracking_status to the bus topic; a passenger session
leaves every field unchanged and publishes nothing. -/
theorem c4_disconnect (sess : Session) (bus : BusRec) :
    (sess.is_driver = true →
      (disconnect_location sess bus).1.current_lat = none ∧
      (disconnect_location sess bus).1.current_lng = none ∧
      (disconnect_location sess bus).1.nearest_stop_index = none ∧
      (disconnect_location sess bus).1.eta_seconds = none ∧
      (disconnect_location sess bus).1.eta_smoothed_seconds = none ∧
      (bus.hasDriver = true →
        (disconnect_location sess bus).1.driver_lat = none ∧
        (disconnect_location sess bus).1.driver_lng = none) ∧
      (disconnect_location sess bus).2
        = [OutEvent.tracking_status "disconnected" "Driver stopped tracking"]) ∧
    (sess.is_driver = false →
      disconnect_location sess bus = (bus, [])) := by
  constructor
  · intro hd
    simp only [disconnect_location, hd, if_true]
    unfold clear_bus_location
    by_cases hb : bus.hasDriver = true
    · simp [hb]
    · simp [hb]
  · intro hd
    simp [disconnect_location, hd]

/-- Witness for c4_disconnect: a driver session over a fully populated
bus clears everything and publishes the disconnected status; a
passenger session leaves the same bus untouched. -/
theorem c4_disconnect_witness :
    ((disconnect_location ⟨5, true⟩
        ⟨some 27, some 85, some 2, some 60, some 50, 4, some 8, true,
         some 27, some 85, none⟩).1.current_lat = none ∧
     (disconnect_location ⟨5, true⟩
        ⟨some 27, some 85, some 2, some 60, some 50, 4, some 8, true,
         some 27, some 85, none⟩).2
        = [OutEvent.tracking_status "disconnected" "Driver stopped tracking"]) ∧
    disconnect_location ⟨5, false⟩
        ⟨some 27, some 85, some 2, some 60, some 50, 4, some 8, true,
         some 27, some 85, none⟩
      = (⟨some 27, some 85, some 2, some 60, some 50, 4, some 8, true,
          some 27, some 85, none⟩, []) := by
  refine ⟨⟨?_, ?_⟩, ?_⟩
  · exact ((c4_disconnect ⟨5, true⟩ _).1 rfl).1
  · exact ((c4_disconnect ⟨5, true⟩ _).1 rfl).2.2.2.2.2.2
  · exact (c4_disconnect ⟨5, false⟩ _).2 rfl

/-! ### Claim C9 -/

/-- Claim C9: a location event arriving on a session that is not the
driver session for the bus is silently discarded: the session and bus
state are returned unchanged, no event is published to the bus topic
and no reply of any kind is produced. -/
theorem c9_nondriver_discarded (hav_m hav_km : Hav) (sess : Session)
    (bus : BusRec) (lat lng : Option ℚ) (now : ℕ)
    (h : sess.is_driver = false) :
    receive_location hav_m hav_km sess bus lat lng now = (sess, bus, []) := by
  simp [receive_location, h]

/-- Witness for c9_nondriver_discarded at a concrete passenger session
and populated bus. -/
theorem c9_nondriver_discarded_witness :
    receive_location (fun _ _ _ _ => 0) (fun _ _ _ _ => 0) ⟨3, false⟩
        ⟨some 27, some 85, some 1, some 60, some 50, 2, some 7, true,
         some 27, some 85, none⟩ (some 99) (some 99) 4
      = (⟨3, false⟩,
         ⟨some 27, some 85, some 1, some 60, some 50, 2, some 7, true,
          some 27, some 85, none⟩, []) :=
  c9_nondriver_discarded _ _ _ _ _ _ _ rfl

/-! ### Claim C10 -/

/-- Claim C10: when a stored coordinate is exactly 0, Python
truthiness makes the prior-position guard treat the position as
absent, so the 25 m minimum-movement check is skipped and any incoming
driver fix is accepted and stored, whatever distance the haversine
helpers would report. -/
theorem c10_zero_coordinate_skips_check (hav_m hav_km : Hav) (bus : BusRec)
    (lat lng : ℚ) (now : ℕ)
    (h : bus.current_lat = some 0 ∨ bus.current_lng = some 0) :
    save_bus_location hav_m hav_km bus lat lng now
        = (true, save_accept hav_km bus lat lng now) ∧
    (save_bus_location hav_m hav_km bus lat lng now).2.current_lat = some lat ∧
    (save_bus_location hav_m hav_km bus lat lng now).2.current_lng = some lng := by
  have hguard : ¬ (pyTruthy bus.current_lat ∧ pyTruthy bus.current_lng) := by
    rcases h with h | h <;> simp [pyTruthy, h]
  refine ⟨?_, ?_, ?_⟩
  · simp [save_bus_location, hguard]
  · simp [save_bus_location, hguard, save_accept_current_lat]
  · simp [save_bus_location, hguard, save_accept_current_lng]

/-- Witness for c10_zero_coordinate_skips_check: a bus whose stored
longitude is exactly 0 accepts a fix even though the distance helper
reports a 1 m move. -/
theorem c10_zero_coordinate_witness :
    save_bus_location (fun _ _ _ _ => 1) (fun _ _ _ _ => 1)
        ⟨some 27, some 0, none, none, none, 0, none, false, none, none, none⟩
        27 85 6
      = (true, save_accept (fun _ _ _ _ => 1)
          ⟨some 27, some 0, none, none, none, 0, none, false, none, none, none⟩
          27 85 6) ∧
    (save_bus_location (fun _ _ _ _ => 1) (fun _ _ _ _ => 1)
        ⟨some 27, some 0, none, none, none, 0, none, false, none, none, none⟩
        27 85 6).2.current_lat = some 27 :=
  ⟨(c10_zero_coordinate_skips_check _ _ _ _ _ _ (Or.inr rfl)).1,
   (c10_zero_coordinate_skips_check _ _ _ _ _ _ (Or.inr rfl)).2.1⟩

/-! ### Claim C1 -/

/-- Claim C1, counterexample: a bus can have a stored position (both
coordinates non-null) and still accept a fix whose haversine distance
from it is under 25 m, because the guard reads the stored coordinates
with Python truthiness and latitude 0.0 is falsy.  Stored position
(0, 85.3), new fix (0.0001, 85.3): the true haversine distance is
about 11 m (the distance parameter plays that value), yet
_save_bus_location accepts. -/
theorem c1_counterexample :
    (⟨some 0, some (853/10), none, none, none, 0, none, false, none, none,
      none⟩ : BusRec).current_lat ≠ none ∧
    (⟨some 0, some (853/10), none, none, none, 0, none, false, none, none,
      none⟩ : BusRec).current_lng ≠ none ∧
    ((fun _ _ _ _ => (11 : ℚ)) : Hav)
        (((⟨some 0, some (853/10), none, none, none, 0, none, false, none,
           none, none⟩ : BusRec).current_lat).getD 0)
        (((⟨some 0, some (853/10), none, none, none, 0, none, false, none,
           none, none⟩ : BusRec).current_lng).getD 0) (1/10000) (853/10)
      < 25 ∧
    (save_bus_location (fun _ _ _ _ => (11 : ℚ)) (fun _ _ _ _ => (11 : ℚ))
        ⟨some 0, some (853/10), none, none, none, 0, none, false, none, none,
         none⟩ (1/10000) (853/10) 3).1 = true := by
  refine ⟨by simp, by simp, by norm_num, ?_⟩
  have hguard : ¬ (pyTruthy (some (0 : ℚ)) ∧ pyTruthy (some ((853 : ℚ)/10))) := by
    simp [pyTruthy]
  simp [save_bus_location, hguard]

/-- Claim C1, amended: for a bus whose stored coordinates are both
truthy (present and non-zero), a fix whose haversine distance from the
stored position is under 25 m is rejected — _save_bus_location returns
False with the bus (and driver) record unchanged, and receive
publishes nothing — while a fix 25 m or farther is accepted and the
new position stored. -/
theorem c1_min_movement_threshold (hav_m hav_km : Hav) (sess : Session)
    (bus : BusRec) (lat lng : ℚ) (now : ℕ)
    (hd : sess.is_driver = true)
    (h1 : pyTruthy bus.current_lat) (h2 : pyTruthy bus.current_lng) :
    (hav_m (bus.current_lat.getD 0) (bus.current_lng.getD 0) lat lng < 25 →
      save_bus_location hav_m hav_km bus lat lng now = (false, bus) ∧
      receive_location hav_m hav_km sess bus (some lat) (some lng) now
        = (sess, bus, [])) ∧
    (25 ≤ hav_m (bus.current_lat.getD 0) (bus.current_lng.getD 0) lat lng →
      (save_bus_location hav_m hav_km bus lat lng now).1 = true ∧
      (save_bus_location hav_m hav_km bus lat lng now).2.current_lat = some lat ∧
      (save_bus_location hav_m hav_km bus lat lng now).2.current_lng = some lng) := by
  constructor
  · intro hlt
    have hs : save_bus_location hav_m hav_km bus lat lng now = (false, bus) := by
      simp [save_bus_location, h1, h2, hlt]
    refine ⟨hs, ?_⟩
    simp [receive_location, hd, hs]
  · intro hge
    have hnlt : ¬ hav_m (bus.current_lat.getD 0) (bus.current_lng.getD 0) lat lng
        < 25 := not_lt.mpr hge
    refine ⟨?_, ?_, ?_⟩
    · simp [save_bus_location, h1, h2, hnlt]
    · simp [save_bus_location, h1, h2, hnlt, save_accept_current_lat]
    · simp [save_bus_location, h1, h2, hnlt, save_accept_current_lng]

/-- Witness for c1_min_movement_threshold: with stored position
(27, 85), a 10 m move is rejected with no publish, and a 30 m move is
accepted and stored. -/
theorem c1_min_movement_witness :
    (save_bus_location (fun _ _ _ _ => 10) (fun _ _ _ _ => 10)
        ⟨some 27, some 85, none, none, none, 0, none, false, none, none, none⟩
        28 86 2
      = (false,
         ⟨some 27, some 85, none, none, none, 0, none, false, none, none,
          none⟩) ∧
     receive_location (fun _ _ _ _ => 10) (fun _ _ _ _ => 10) ⟨0, true⟩
        ⟨some 27, some 85, none, none, none, 0, none, false, none, none, none⟩
        (some 28) (some 86) 2
      = (⟨0, true⟩,
         ⟨some 27, some 85, none, none, none, 0, none, false, none, none,
          none⟩, [])) ∧
    ((save_bus_location (fun _ _ _ _ => 30) (fun _ _ _ _ => 30)
        ⟨some 27, some 85, none, none, none, 0, none, false, none, none, none⟩
        28 86 2).1 = true ∧
     (save_bus_location (fun _ _ _ _ => 30) (fun _ _ _ _ => 30)
        ⟨some 27, some 85, none, none, none, 0, none, false, none, none, none⟩
        28 86 2).2.current_lat = some 28 ∧
     (save_bus_location (fun _ _ _ _ => 30) (fun _ _ _ _ => 30)
        ⟨some 27, some 85, none, none, none, 0, none, false, none, none, none⟩
        28 86 2).2.current_lng = some 86) :=
  ⟨(c1_min_movement_threshold _ _ ⟨0, true⟩ _ 28 86 2 rfl (by decide)
      (by decide)).1 (by decide),
   (c1_min_movement_threshold _ _ ⟨0, true⟩ _ 28 86 2 rfl (by decide)
      (by decide)).2 (by decide)⟩

/-! ### Claim C2 -/

/-- Claim C2: within a driver location session started at sequence 0,
the published log over any incoming trace is exactly: for the n-th
accepted fix, a location_update with sequence n (so sequences start at
1 and strictly increase), with a connected tracking_status immediately
before the first one; and every location_update a newly connected
passenger receives as historical replay carries sequence -1 and the
historical flag. -/
theorem c2_sequence_protocol :
    (∀ (hm hk : Hav) (bus : BusRec) (now : ℕ) (trace : List (ℚ × ℚ)),
      (run_trace hm hk ⟨0, true⟩ bus now trace).2.2
        = expected_events (accepted_fixes hm hk bus now trace) 0) ∧
    (∀ (bus : BusRec) (la ln : ℚ) (hist : Bool) (q : ℤ),
      OutEvent.location_update la ln hist q ∈ connect_messages false bus →
        q = -1 ∧ hist = true) := by
  constructor
  · intro hm hk bus now trace
    exact (run_trace_invariant hm hk now trace 0 bus).2
  · intro bus la ln hist q h
    unfold connect_messages at h
    simp only [if_false, Bool.false_eq_true] at h
    cases hl : get_last_bus_location bus with
    | none => rw [hl] at h; simp at h
    | some p =>
      rw [hl] at h
      simp at h
      exact ⟨h.2.2.2, h.2.2.1⟩

/-- Witness for c2_sequence_protocol: the end-to-end scenario of the
specification — a fresh driver session accepts two fixes (the first
unconditional, the second a 30 m move) and publishes connected, then
sequence 1, then sequence 2; a passenger connecting to a bus with a
stored position receives the replay with sequence -1. -/
theorem c2_sequence_protocol_witness :
    (run_trace (fun _ _ _ _ => 30) (fun _ _ _ _ => 30) ⟨0, true⟩
        ⟨none, none, none, none, none, 0, none, false, none, none, none⟩
        1 [(27, 85), (28, 86)]).2.2
      = expected_events
          (accepted_fixes (fun _ _ _ _ => 30) (fun _ _ _ _ => 30)
            ⟨none, none, none, none, none, 0, none, false, none, none, none⟩
            1 [(27, 85), (28, 86)]) 0 ∧
    (run_trace (fun _ _ _ _ => 30) (fun _ _ _ _ => 30) ⟨0, true⟩
        ⟨none, none, none, none, none, 0, none, false, none, none, none⟩
        1 [(27, 85), (28, 86)]).2.2
      = [OutEvent.tracking_status "connected" "Driver started tracking",
         OutEvent.location_update 27 85 false 1,
         OutEvent.location_update 28 86 false 2] ∧
    ((-1 : ℤ) = -1 ∧ true = true) := by
  refine ⟨(c2_sequence_protocol.1 _ _ _ _ _), by decide, ?_⟩
  exact c2_sequence_protocol.2
    ⟨some 27, some 85, none, none, none, 0, none, false, none, none, none⟩
    27 85 true (-1) (by decide)

/-! ### Claim C5 -/

/-- Claim C5: for a route whose ordered stop list has N entries (with
pairwise distinct stop ids, as the database enforces), get_stop_graph
returns an adjacency mapping with one entry per stop keyed in route
order, exactly N - 1 edges in total, the entry of stop i holding the
single forward edge to stop i+1 — weighted by the stored
distance-to-next when present and non-zero, else the haversine
distance — and the last entry holding no edge. -/
theorem c5_route_graph (hav : Hav) (stops : List RouteStopRec)
    (hnd : (stops.map (fun rs => rs.stop.stopId)).Nodup) :
    (get_stop_graph hav stops).map Prod.fst
        = stops.map (fun rs => rs.stop.stopId) ∧
    ((get_stop_graph hav stops).map (fun e => e.2.length)).sum
        = stops.length - 1 ∧
    (∀ i, i + 1 < stops.length →
      ((get_stop_graph hav stops).getD i (0, [])).2
        = [((stops.getD (i + 1) ⟨⟨0, 0, 0⟩, none⟩).stop.stopId,
            edgeWeight hav (stops.getD i ⟨⟨0, 0, 0⟩, none⟩)
              (stops.getD (i + 1) ⟨⟨0, 0, 0⟩, none⟩))]) ∧
    (∀ i, i + 1 = stops.length →
      ((get_stop_graph hav stops).getD i (0, [])).2 = []) :=
  ⟨get_stop_graph_keys hav stops, get_stop_graph_edge_count hav stops,
   fun i h => get_stop_graph_forward hav stops i h,
   fun i h => get_stop_graph_last hav stops i h⟩

/-- Witness for c5_route_graph on a concrete three-stop route: stop 10
has a stored distance 7 to stop 20, stop 20 has a stored distance 0 to
stop 30 (so the haversine fallback, here the constant 5, is used), and
stop 30 ends the route. -/
theorem c5_route_graph_witness :
    (get_stop_graph (fun _ _ _ _ => 5)
        [⟨⟨10, 1, 1⟩, some 7⟩, ⟨⟨20, 2, 2⟩, some 0⟩, ⟨⟨30, 3, 3⟩, none⟩]).map
        Prod.fst = [10, 20, 30] ∧
    ((get_stop_graph (fun _ _ _ _ => 5)
        [⟨⟨10, 1, 1⟩, some 7⟩, ⟨⟨20, 2, 2⟩, some 0⟩, ⟨⟨30, 3, 3⟩, none⟩]).map
        (fun e => e.2.length)).sum = 2 ∧
    ((get_stop_graph (fun _ _ _ _ => 5)
        [⟨⟨10, 1, 1⟩, some 7⟩, ⟨⟨20, 2, 2⟩, some 0⟩, ⟨⟨30, 3, 3⟩, none⟩]).getD
        0 (0, [])).2 = [(20, 7)] ∧
    ((get_stop_graph (fun _ _ _ _ => 5)
        [⟨⟨10, 1, 1⟩, some 7⟩, ⟨⟨20, 2, 2⟩, some 0⟩, ⟨⟨30, 3, 3⟩, none⟩]).getD
        1 (0, [])).2 = [(30, 5)] ∧
    ((get_stop_graph (fun _ _ _ _ => 5)
        [⟨⟨10, 1, 1⟩, some 7⟩, ⟨⟨20, 2, 2⟩, some 0⟩, ⟨⟨30, 3, 3⟩, none⟩]).getD
        2 (0, [])).2 = [] := by
  have h := c5_route_graph (fun _ _ _ _ => 5)
    [⟨⟨10, 1, 1⟩, some 7⟩, ⟨⟨20, 2, 2⟩, some 0⟩, ⟨⟨30, 3, 3⟩, none⟩]
    (by decide)
  refine ⟨h.1, by simpa using h.2.1, ?_, ?_, h.2.2.2 2 (by decide)⟩
  · have h0 := h.2.2.1 0 (by decide)
    simpa [edgeWeight] using h0
  · have h1 := h.2.2.1 1 (by decide)
    simpa [edgeWeight] using h1

/-! ### Claim C6 -/

/-- Claim C6, counterexample: the homepage pickup ETA truncates the
total minutes (Python int()) instead of rounding them.  At total
distance 1.125 km and no intermediate stop the total is 2.7 minutes:
the code yields 2, while max(1, round(total minutes)) as claimed would
be 3. -/
theorem c6_counterexample :
    homepage_eta (9/8) 0 = 2 ∧ homepage_eta_spec (9/8) 0 = 3 ∧ (2 : ℤ) ≠ 3 := by
  refine ⟨?_, ?_, by decide⟩
  · norm_num [homepage_eta, pyInt]
  · norm_num [homepage_eta_spec, round_eq]

/-- Claim C6, amended: for every pickup ETA computed in the homepage
search on a live, non-stale, not-passed bus, the ETA in minutes is
max(1, trunc(total minutes)) — truncation toward zero, not rounding —
where total minutes is the distance in km over 25 km/h converted to
minutes plus one dwell minute per stop between the nearest and the
pickup index, and stopsBetween is max(0, pickupIdx - nearestIdx). -/
theorem c6_eta_truncation (d : ℚ) (s : ℤ) :
    homepage_eta d s = max 1 (pyInt (d / 25 * 60 + (s : ℚ))) ∧
    (∀ p n : ℤ, stops_between_clamped p n = max 0 (p - n)) := by
  constructor
  · simp only [homepage_eta]
    have h60 : ((s : ℚ) * 60) / 60 = (s : ℚ) := by ring
    rw [h60]
  · intro p n
    unfold stops_between_clamped
    split_ifs with h <;> omega

/-! ### Claim C7 -/

/-- Claim C7, counterexample: an accepted WebSocket location update
never touches the passed-stop counter.  A bus with stored nearest
index 0 accepts a fix whose new nearest index is 1, yet the counter
stays at its old value 0 instead of being incremented to 1 as the
claim requires. -/
theorem c7_counterexample :
    (save_bus_location (fun _ _ _ _ => 0)
        (fun _ _ sa _ => if sa = 5 then 100 else 0)
        ⟨none, none, some 0, none, none, 0, none, true, none, none,
         some [⟨1, 5, 6⟩, ⟨2, 27, 85⟩]⟩ 27 85 3).1 = true ∧
    (⟨none, none, some 0, none, none, 0, none, true, none, none,
      some [⟨1, 5, 6⟩, ⟨2, 27, 85⟩]⟩ : BusRec).nearest_stop_index = some 0 ∧
    (save_bus_location (fun _ _ _ _ => 0)
        (fun _ _ sa _ => if sa = 5 then 100 else 0)
        ⟨none, none, some 0, none, none, 0, none, true, none, none,
         some [⟨1, 5, 6⟩, ⟨2, 27, 85⟩]⟩ 27 85 3).2.nearest_stop_index
      = some 1 ∧
    (save_bus_location (fun _ _ _ _ => 0)
        (fun _ _ sa _ => if sa = 5 then 100 else 0)
        ⟨none, none, some 0, none, none, 0, none, true, none, none,
         some [⟨1, 5, 6⟩, ⟨2, 27, 85⟩]⟩ 27 85 3).2.eta_passed_counter = 0 ∧
    (0 : ℤ) ≠ 0 + 1 := by
  refine ⟨?_, rfl, ?_, ?_, by decide⟩
  · norm_num [save_bus_location, pyTruthy]
  · norm_num [save_bus_location, pyTruthy, save_accept, minIndex, minIndexAux,
      stopDist, List.range_succ]
    rw [if_neg (by decide)]
  · norm_num [save_bus_location, pyTruthy, save_accept, minIndex, minIndexAux,
      stopDist, List.range_succ]
    rw [if_neg (by decide)]

/-- Claim C7, amended: the passed-stop counter rule (increment on a
strictly larger new nearest index, reset to zero on a strictly
smaller one, unchanged on equality) holds on the AJAX update_location
path; the WebSocket _save_bus_location path leaves the counter
unchanged on every update, accepted or not. -/
theorem c7_passed_counter (hm hk : Hav) (bus : BusRec) (la ln : ℚ) (now : ℕ) :
    ((save_bus_location hm hk bus la ln now).2.eta_passed_counter
        = bus.eta_passed_counter) ∧
    (∀ (stops : List GeoStop) (ok : ℕ), bus.routeStops = some stops →
      stops ≠ [] → bus.nearest_stop_index = some ok →
      (update_location hk bus la ln).eta_passed_counter
        = (if ok < minIndex (stopDist hk la ln stops) stops.length then
            bus.eta_passed_counter + 1
          else if minIndex (stopDist hk la ln stops) stops.length < ok then 0
          else bus.eta_passed_counter)) := by
  constructor
  · by_cases hg : (pyTruthy bus.current_lat ∧ pyTruthy bus.current_lng)
    · simp only [save_bus_location, hg, if_true]
      by_cases hlt : hm (bus.current_lat.getD 0) (bus.current_lng.getD 0) la ln
          < 25
      · simp [hlt]
      · simp [hlt, save_accept_counter]
    · simp [save_bus_location, hg, save_accept_counter]
  · intro stops ok hr hne hok
    unfold update_location
    rw [hr, hok]
    simp [hne]

/-- Witness for c7_passed_counter: the WebSocket path preserves a
counter of 4 across a rejected sub-25 m update, and the AJAX path
increments 4 to 5 when the nearest index moves from 0 to 1. -/
theorem c7_passed_counter_witness :
    (save_bus_location (fun _ _ _ _ => 0)
        (fun _ _ sa _ => if sa = 5 then 100 else 0)
        ⟨some 5, some 6, some 0, none, none, 4, none, true, some 5, some 6,
         some [⟨1, 5, 6⟩, ⟨2, 27, 85⟩]⟩ 27 85 1).2.eta_passed_counter = 4 ∧
    (update_location (fun _ _ sa _ => if sa = 5 then 100 else 0)
        ⟨some 5, some 6, some 0, none, none, 4, none, true, some 5, some 6,
         some [⟨1, 5, 6⟩, ⟨2, 27, 85⟩]⟩ 27 85).eta_passed_counter = 5 := by
  constructor
  · simpa using (c7_passed_counter (fun _ _ _ _ => 0)
      (fun _ _ sa _ => if sa = 5 then 100 else 0)
      ⟨some 5, some 6, some 0, none, none, 4, none, true, some 5, some 6,
       some [⟨1, 5, 6⟩, ⟨2, 27, 85⟩]⟩ 27 85 1).1
  · have h := (c7_passed_counter (fun _ _ _ _ => 0)
      (fun _ _ sa _ => if sa = 5 then 100 else 0)
      ⟨some 5, some 6, some 0, none, none, 4, none, true, some 5, some 6,
       some [⟨1, 5, 6⟩, ⟨2, 27, 85⟩]⟩ 27 85 1).2
      [⟨1, 5, 6⟩, ⟨2, 27, 85⟩] 0 rfl (by decide) rfl
    norm_num [minIndex, minIndexAux, stopDist, List.range_succ] at h
    exact h

/-! ### Claim C8 -/

/-- Claim C8, counterexample: the driver fallback excludes messages the
driver sent to themself, while the claim reads the most recent message
ever received by the driver.  With a self-message (7 to 7, time 10)
more recent than a message from user 3 (time 5), the claim resolves
the recipient to 7 but the code resolves it to 3. -/
theorem c8_counterexample :
    last_message_received_spec [⟨7, 7, 10⟩, ⟨3, 7, 5⟩] 7 = some 7 ∧
    chat_receive true 7 none none none [⟨7, 7, 10⟩, ⟨3, 7, 5⟩] "hi"
      = some (3, "hi") ∧
    (3 : ℕ) ≠ 7 := by
  refine ⟨by decide, by decide, by decide⟩

/-- Claim C8, amended: the chat recipient resolves, in order, to (a)
a truthy explicit recipient id; (b) else, given a truthy bus id and a
non-driver sender, the user id of the assigned driver of the bus; (c)
else, for a driver
sender, the sender of the most recent message received by the driver
from someone other than the driver; and the event is dropped —
nothing persisted, nothing published — exactly when no truthy
recipient resolves or the content is empty. -/
theorem c8_recipient_resolution (isDrv : Bool) (senderId : ℕ)
    (rid bid busD : Option ℕ) (msgs : List ChatMsg) (content : String) :
    (pyTruthyNat rid →
      resolve_recipient isDrv senderId rid bid busD msgs = rid) ∧
    (¬ pyTruthyNat rid → pyTruthyNat bid → isDrv = false →
      ∀ u, busD = some u → u ≠ 0 →
        resolve_recipient isDrv senderId rid bid busD msgs = some u) ∧
    (¬ pyTruthyNat rid → isDrv = true →
      ∀ u, last_user_to_driver msgs senderId = some u → u ≠ 0 →
        resolve_recipient isDrv senderId rid bid busD msgs = some u) ∧
    ((¬ pyTruthyNat (resolve_recipient isDrv senderId rid bid busD msgs)
        ∨ content = "") →
      chat_receive isDrv senderId rid bid busD msgs content = none) ∧
    (∀ u, resolve_recipient isDrv senderId rid bid busD msgs = some u →
      u ≠ 0 → content ≠ "" →
      chat_receive isDrv senderId rid bid busD msgs content
        = some (u, content)) := by
  refine ⟨?_, ?_, ?_, ?_, ?_⟩
  · intro ht
    have hnot : ¬ (¬ pyTruthyNat rid ∧ pyTruthyNat bid) := by
      intro hc; exact hc.1 ht
    simp [resolve_recipient, hnot, ht]
  · intro hn hb hdrv u hu hu0
    have hru : pyTruthyNat (some u) := by
      constructor
      · simp
      · simp [hu0]
    simp [resolve_recipient, hn, hb, hdrv, hu, hru]
  · intro hn hdrv u hu hu0
    have hcond : ¬ (¬ pyTruthyNat rid ∧ pyTruthyNat bid) ∨ True := Or.inr trivial
    by_cases hb : pyTruthyNat bid
    · simp [resolve_recipient, hn, hb, hdrv, hu, hu0]
    · simp [resolve_recipient, hn, hb, hdrv, hu, hu0]
  · intro h
    rcases h with h | h
    · unfold chat_receive
      cases hr : resolve_recipient isDrv senderId rid bid busD msgs with
      | none => rfl
      | some u =>
        rw [hr] at h
        have hu0 : u = 0 := by
          by_contra hc
          exact h ⟨by simp, by simp [hc]⟩
        simp [hu0]
    · unfold chat_receive
      cases hr : resolve_recipient isDrv senderId rid bid busD msgs with
      | none => rfl
      | some u => simp [h]
  · intro u hu hu0 hc
    simp [chat_receive, hu, hu0, hc]

/-- Witness for c8_recipient_resolution: (a) an explicit recipient 9
wins; (b) user 3 messaging bus 2 (driver user 7) resolves to 7; (c)
driver 7 with last outside contact 3 resolves to 3; an empty content
is dropped; and the resolved message for case (b) is persisted with
recipient 7. -/
theorem c8_recipient_resolution_witness :
    resolve_recipient false 3 (some 9) (some 2) (some 7) [] = some 9 ∧
    resolve_recipient false 3 none (some 2) (some 7) [] = some 7 ∧
    resolve_recipient true 7 none none none [⟨3, 7, 5⟩] = some 3 ∧
    chat_receive false 3 none (some 2) (some 7) [] "" = none ∧
    chat_receive false 3 none (some 2) (some 7) [] "hello"
      = some (7, "hello") := by
    refine ⟨?_, ?_, ?_, ?_, ?_⟩
    · exact (c8_recipient_resolution false 3 (some 9) (some 2) (some 7) []
        "x").1 (by decide)
    · exact (c8_recipient_resolution false 3 none (some 2) (some 7) []
        "x").2.1 (by decide) (by decide) rfl 7 rfl (by decide)
    · exact (c8_recipient_resolution true 7 none none none [⟨3, 7, 5⟩]
        "x").2.2.1 (by decide) rfl 3 (by decide) (by decide)
    · exact (c8_recipient_resolution false 3 none (some 2) (some 7) []
        "").2.2.2.1 (Or.inr rfl)
    · exact (c8_recipient_resolution false 3 none (some 2) (some 7) []
        "hello").2.2.2.2 7 (by decide) (by decide) (by decide)

end LocalRoute
